import Mathlib

/-!
Verification development for the client-side state machine and animation
coordination layer of the personal-page repository.

The definitions below are a shallow embedding of the JavaScript sources:

* `AppStateManager` and its operations follow the full revision of
  `AppState.js` (the file with state validation and change callbacks,
  `src/unnamed/part_000`); the slimmer `src/src/utils/AppState.js` is the
  same module minus validation and subscriptions.
* `AnimationManagerState` and its operations follow
  `src/src/utils/AnimationManager.js`.
* `UIManagerState` and `enforceCorrectUIState` follow
  `src/src/utils/UIManager.js`.

Conventions of the embedding: `Date.now()` values are passed in explicitly
as `Nat` arguments (`now`).  JavaScript computes `now - last < 300` on
integers; for `now < last` the JS difference is negative and hence `< 300`,
and the truncated `Nat` subtraction gives `0 < 300`, so `Nat` subtraction
is behaviourally identical here.  DOM elements and the 3D scene are
external to the module; their presence is passed in as booleans
(`isHome`, `promptExists`, ...), and the imperative DOM/3D animation calls
performed by an operation are recorded in an explicit `Effects` trace.
Animation handles created by `anime(...)` are fresh objects; the embedding
models them as freshly allocated `Nat` tokens drawn from a counter.
-/

/-- The `APP_STATES` enumeration of AppState.js: every valid phase string. -/
def APP_STATES : List String :=
  ["INITIALIZING", "IDLE", "MENU_OPENING", "MENU_OPEN", "MENU_CLOSING",
   "TRANSITIONING_TO_SUBPAGE", "TRANSITIONING_TO_HOME", "SUBPAGE"]

/-- One entry of `_stateChangeCallbacks`: the subscription id together with
its `fromState`/`toState` filters.  The callback function itself is opaque;
the embedding records which subscription ids get invoked. -/
structure Subscription where
  id : String
  fromState : String
  toState : String
deriving DecidableEq

/-- The mutable fields of the `AppStateManager` singleton. -/
structure AppStateManager where
  currentState : String
  previousState : Option String
  lastStateChangeTime : Nat
  navigationBackToHome : Bool
  stateChangeCallbacks : List Subscription
deriving DecidableEq

/-- Outcome of a `transitionTo` call: rejected by the debounce check,
rejected by the `APP_STATES` membership validation (the `InvalidPhase`
error report, `console.error`), or committed.  The JS function returns
`false` in the first two cases and `true` in the last. -/
inductive TransitionResult
  | debounced
  | invalidState
  | committed
deriving DecidableEq

/-- Trace of the imperative side effects performed by one operation:
which state `performStateActions` ran for, whether the continue prompt
was shown/hidden, whether the menu was force-hidden/shown, whether
`AnimationManager.clearAnimations()` ran, the `appStateChanged` event
detail that was dispatched, and the subscription ids whose callbacks were
invoked (in registration order). -/
structure Effects where
  actionsRun : Option String
  promptShown : Bool
  promptHidden : Bool
  menuHiddenEnforced : Bool
  menuShownEnforced : Bool
  animationsCleared : Bool
  dispatched : Option (String × Option String)
  fired : List String
deriving DecidableEq

/-- The empty effect trace: nothing ran. -/
def Effects.noEffects : Effects :=
  ⟨none, false, false, false, false, false, none, []⟩

/-- Effects of `performStateActions(newState, previousState)`:
`AnimationManager.clearAnimations()` always runs, then the per-state UI
calls.  `isHome` is the value of `this.isHomePage()` at call time. -/
def performStateActions (newState : String) (isHome : Bool) : Effects :=
  if newState = "IDLE" then
    ⟨some newState, isHome, false, true, false, true, none, []⟩
  else if newState = "MENU_OPEN" then
    ⟨some newState, false, true, false, true, true, none, []⟩
  else if newState = "SUBPAGE" then
    ⟨some newState, false, true, true, false, true, none, []⟩
  else
    ⟨some newState, false, false, false, false, true, none, []⟩

/-- Whether a subscription's filters match a transition from `prev` to
`next`, as tested inside `transitionTo`. -/
def subMatches (prev next : String) (c : Subscription) : Bool :=
  (c.fromState == "*" || c.fromState == prev) &&
  (c.toState == "*" || c.toState == next)

/-- The `transitionTo(newState)` method.  In source order: the debounce
check against `_lastStateChangeTime`, the `APP_STATES` membership
validation, then the commit: `_previousState := _currentState`,
`_currentState := newState`, `_lastStateChangeTime := now`,
`performStateActions`, the `appStateChanged` dispatch, and the matching
subscription callbacks in registration order. -/
def transitionTo (s : AppStateManager) (now : Nat) (newState : String)
    (isHome : Bool) : TransitionResult × AppStateManager × Effects :=
  if now - s.lastStateChangeTime < 300 then
    (TransitionResult.debounced, s, Effects.noEffects)
  else if ¬ APP_STATES.contains newState then
    (TransitionResult.invalidState, s, Effects.noEffects)
  else
    let prev := s.currentState
    let s' : AppStateManager :=
      ⟨newState, some prev, now, s.navigationBackToHome, s.stateChangeCallbacks⟩
    let a := performStateActions newState isHome
    let firedIds :=
      (s.stateChangeCallbacks.filter (subMatches prev newState)).map Subscription.id
    (TransitionResult.committed, s',
      ⟨a.actionsRun, a.promptShown, a.promptHidden, a.menuHiddenEnforced,
       a.menuShownEnforced, a.animationsCleared,
       some (newState, some prev), firedIds⟩)

/-- The `isTransitioning` getter. -/
def isTransitioning (s : AppStateManager) : Bool :=
  ["MENU_OPENING", "MENU_CLOSING", "TRANSITIONING_TO_SUBPAGE",
   "TRANSITIONING_TO_HOME"].contains s.currentState

/-- The `isMenuInteractionAllowed` getter; `isHome` is `isHomePage()`. -/
def isMenuInteractionAllowed (s : AppStateManager) (isHome : Bool) : Bool :=
  isHome && !(isTransitioning s)

/-- The `onStateChange(fromState, toState, callback)` registration; the
generated id is passed in explicitly.  `Map.set` on a fresh key appends in
insertion order. -/
def onStateChange (s : AppStateManager) (id fromState toState : String) :
    AppStateManager :=
  ⟨s.currentState, s.previousState, s.lastStateChangeTime,
   s.navigationBackToHome, s.stateChangeCallbacks ++ [⟨id, fromState, toState⟩]⟩

/-- The `offStateChange(id)` removal: if the id is registered, delete it
and return `true`, else return `false`. -/
def offStateChange (s : AppStateManager) (id : String) :
    Bool × AppStateManager :=
  if s.stateChangeCallbacks.any (fun c => c.id == id) then
    (true,
     ⟨s.currentState, s.previousState, s.lastStateChangeTime,
      s.navigationBackToHome,
      s.stateChangeCallbacks.filter (fun c => c.id != id)⟩)
  else
    (false, s)

/-- The `setNavigatingBackToHome(value)` setter. -/
def setNavigatingBackToHome (s : AppStateManager) (value : Bool) :
    AppStateManager :=
  ⟨s.currentState, s.previousState, s.lastStateChangeTime, value,
   s.stateChangeCallbacks⟩

/-- The `openMenu()` method.  The DOM/3D opening animations it schedules
are external; their completion callbacks re-enter `transitionTo`, which is
modelled separately.  Returns the JS boolean result. -/
def openMenu (s : AppStateManager) (now : Nat) (isHome : Bool) :
    Bool × AppStateManager × Effects :=
  if ¬ isMenuInteractionAllowed s isHome then
    (false, s, Effects.noEffects)
  else if s.currentState = "IDLE" then
    let t := transitionTo s now "MENU_OPENING" isHome
    if t.1 = TransitionResult.committed then
      (true, t.2.1, t.2.2)
    else
      (false, t.2.1, t.2.2)
  else
    (false, s, Effects.noEffects)

/-- The `closeMenu()` method up to (and excluding) its asynchronous
completion callback: the `MENU_OPEN` guard and the commit to
`MENU_CLOSING`.  The menu-out/distortion/logo animations it schedules are
external; their completion is `closeMenuCompletion`. -/
def closeMenu (s : AppStateManager) (now : Nat) (isHome : Bool) :
    Bool × AppStateManager × Effects :=
  if s.currentState ≠ "MENU_OPEN" then
    (false, s, Effects.noEffects)
  else
    let t := transitionTo s now "MENU_CLOSING" isHome
    if t.1 = TransitionResult.committed then
      (true, t.2.1, t.2.2)
    else
      (false, t.2.1, t.2.2)

/-- The completion callback of `closeMenu`'s closing sequence, fired at
time `now`.  In the logo branch (`logoBranch = true`) the callback runs
`transitionTo(IDLE)` and then shows the continue prompt whenever the
element exists; in the no-logo `setTimeout` branch it runs
`transitionTo(IDLE)` and shows the prompt only when `isHomePage()` holds
at callback time. -/
def closeMenuCompletion (s : AppStateManager) (now : Nat)
    (isHome promptExists logoBranch : Bool) : AppStateManager × Effects :=
  let t := transitionTo s now "IDLE" isHome
  let e := t.2.2
  let shown := e.promptShown ||
    (if logoBranch then promptExists else isHome && promptExists)
  (t.2.1,
   ⟨e.actionsRun, shown, e.promptHidden, e.menuHiddenEnforced,
    e.menuShownEnforced, e.animationsCleared, e.dispatched, e.fired⟩)

/-- The `prepareForTransition(toHomePage)` method: commit to the matching
transitional state, and when heading home set the navigation flag.  The
scene `prepareForTransition()` call and the overlay are external. -/
def prepareForTransition (s : AppStateManager) (now : Nat)
    (toHomePage isHome : Bool) : AppStateManager × Effects :=
  let t := transitionTo s now
    (if toHomePage then "TRANSITIONING_TO_HOME" else "TRANSITIONING_TO_SUBPAGE")
    isHome
  let s1 := if toHomePage then setNavigatingBackToHome t.2.1 true else t.2.1
  (s1, t.2.2)

/-- The `handleAfterNavigation()` lifecycle hook, with `isHomePage()`
evaluated on the new URL. -/
def handleAfterNavigation (s : AppStateManager) (now : Nat) (isHome : Bool) :
    AppStateManager × Effects :=
  if isHome then
    if s.currentState = "TRANSITIONING_TO_HOME" then
      let t := transitionTo s now "IDLE" true
      (t.2.1, t.2.2)
    else
      (s, Effects.noEffects)
  else
    let t := transitionTo s now "SUBPAGE" false
    (t.2.1, t.2.2)

/-- The `handlePageLoad()` lifecycle hook: on the home route, when the
back-to-home flag is observed `true`, it is reset and `transitionTo(IDLE)`
runs (the trailing `UIManager.enforceCorrectUIState()` call passes no
argument and is a no-op inside UIManager). -/
def handlePageLoad (s : AppStateManager) (now : Nat) (isHome : Bool) :
    AppStateManager × Effects :=
  if isHome then
    if s.navigationBackToHome then
      let s1 := setNavigatingBackToHome s false
      let t := transitionTo s1 now "IDLE" true
      (t.2.1, t.2.2)
    else
      (s, Effects.noEffects)
  else
    (s, Effects.noEffects)

/-- Fold a list of `(now, target, isHome)` transition requests over the
state, collecting each request's list of fired subscription ids. -/
def runTransitions (s : AppStateManager) :
    List (Nat × String × Bool) → AppStateManager × List (List String)
  | [] => (s, [])
  | (now, t, h) :: rest =>
    let r := transitionTo s now t h
    let rec' := runTransitions r.2.1 rest
    (rec'.1, r.2.2.fired :: rec'.2)

/-- The `_activeAnimations` map of AnimationManager.js (insertion-ordered
group id → tracked handles), the set of handles whose `pause()` has been
called, and the fresh-handle counter modelling `anime(...)` allocating a
new object per call. -/
structure AnimationManagerState where
  activeAnimations : List (String × List Nat)
  paused : List Nat
  nextHandle : Nat
deriving DecidableEq

/-- Map lookup: `_activeAnimations.get(groupId)`. -/
def lookupGroup (m : List (String × List Nat)) (g : String) :
    Option (List Nat) :=
  (m.find? (fun p => p.1 == g)).map Prod.snd

/-- Map membership: `_activeAnimations.has(groupId)`. -/
def hasGroup (m : List (String × List Nat)) (g : String) : Bool :=
  m.any (fun p => p.1 == g)

/-- Map deletion: `_activeAnimations.delete(groupId)`. -/
def deleteGroup (m : List (String × List Nat)) (g : String) :
    List (String × List Nat) :=
  m.filter (fun p => p.1 != g)

/-- All handles tracked in the map, over all groups. -/
def allHandles (m : List (String × List Nat)) : List Nat :=
  (m.map Prod.snd).flatten

/-- The `clearAnimations(groupId)` method.  `none` stands for the falsy
arguments (`null`, the default): pause every tracked handle and clear the
whole map.  For `some g`: when the group exists, pause each of its handles
and delete its entry; when it does not, nothing happens. -/
def clearAnimations (s : AnimationManagerState) (groupId : Option String) :
    AnimationManagerState :=
  match groupId with
  | some g =>
    if hasGroup s.activeAnimations g then
      ⟨deleteGroup s.activeAnimations g,
       s.paused ++ (lookupGroup s.activeAnimations g).getD [],
       s.nextHandle⟩
    else
      s
  | none =>
    ⟨[], s.paused ++ allHandles s.activeAnimations, s.nextHandle⟩

/-- The `_trackAnimation(groupId, animation)` method: create the group's
array if absent, then push the handle. -/
def trackAnimation (s : AnimationManagerState) (g : String) (h : Nat) :
    AnimationManagerState :=
  if hasGroup s.activeAnimations g then
    ⟨s.activeAnimations.map
       (fun p => if p.1 == g then (p.1, p.2 ++ [h]) else p),
     s.paused, s.nextHandle⟩
  else
    ⟨s.activeAnimations ++ [(g, [h])], s.paused, s.nextHandle⟩

/-- Allocate a fresh handle for a new `anime(...)` instance. -/
def freshHandle (s : AnimationManagerState) : Nat × AnimationManagerState :=
  (s.nextHandle, ⟨s.activeAnimations, s.paused, s.nextHandle + 1⟩)

/-- The `animateMenuIn(menu, onComplete)` method: bail out when the menu
element is missing, else clear the `"menu"` group and track the single
item-stagger animation. -/
def animateMenuIn (s : AnimationManagerState) (menuExists : Bool) :
    AnimationManagerState :=
  if ¬ menuExists then s
  else
    let s1 := clearAnimations s (some "menu")
    let f := freshHandle s1
    trackAnimation f.2 "menu" f.1

/-- The `animateMenuOut(menu, onComplete)` method: bail out when the menu
element is missing, else clear the `"menu"` group and track two
animations: the menu-items tween and the background fade. -/
def animateMenuOut (s : AnimationManagerState) (menuExists : Bool) :
    AnimationManagerState :=
  if ¬ menuExists then s
  else
    let s1 := clearAnimations s (some "menu")
    let f1 := freshHandle s1
    let s2 := trackAnimation f1.2 "menu" f1.1
    let f2 := freshHandle s2
    trackAnimation f2.2 "menu" f2.1

/-- The `animateLogoForMenuOpen(logo, onComplete)` method: bail out when
the logo is missing, else clear the `"logo"` group and track the single
timeline. -/
def animateLogoForMenuOpen (s : AnimationManagerState) (logoExists : Bool) :
    AnimationManagerState :=
  if ¬ logoExists then s
  else
    let s1 := clearAnimations s (some "logo")
    let f := freshHandle s1
    trackAnimation f.2 "logo" f.1

/-- The `animateLogoForMenuClose(logo, initialState, onComplete)` method:
bail out when the logo is missing, else clear the `"logo"` group and track
the single timeline. -/
def animateLogoForMenuClose (s : AnimationManagerState) (logoExists : Bool) :
    AnimationManagerState :=
  if ¬ logoExists then s
  else
    let s1 := clearAnimations s (some "logo")
    let f := freshHandle s1
    trackAnimation f.2 "logo" f.1

/-- The `animateDistortion(amount, duration, groupId)` method: when the
distortion pass exists, track one tween in `groupId` (note: without
clearing the group first). -/
def animateDistortion (s : AnimationManagerState) (hasPass : Bool)
    (groupId : String) : AnimationManagerState :=
  if ¬ hasPass then s
  else
    let f := freshHandle s
    trackAnimation f.2 groupId f.1

/-- A registry state is well formed when no handle is tracked twice (every
`anime(...)` call creates a fresh object, so the program only ever tracks
pairwise-distinct handles), every tracked handle is below the allocation
counter, and the map's keys are unique (JS `Map` keys). -/
def AnimWF (s : AnimationManagerState) : Prop :=
  (allHandles s.activeAnimations).Nodup ∧
  (∀ h ∈ allHandles s.activeAnimations, h < s.nextHandle) ∧
  (s.activeAnimations.map Prod.fst).Nodup

/-- One `nav ul li` menu item: its inline `opacity` and `transform`
styles (the empty string is a cleared inline style). -/
structure MenuItem where
  opacity : String
  transform : String
deriving DecidableEq

/-- The menu container element: its `hidden`/`visible` classes, inline
`opacity`, and its menu items. -/
structure MenuEl where
  hiddenCls : Bool
  visibleCls : Bool
  opacity : String
  items : List MenuItem
deriving DecidableEq

/-- The continue-prompt element: its `hidden` class and inline opacity. -/
structure PromptEl where
  hiddenCls : Bool
  opacity : String
deriving DecidableEq

/-- The DOM surface UIManager.js manipulates; `homeContent` carries just
its inline opacity when the element exists. -/
structure Dom where
  menu : Option MenuEl
  continuePrompt : Option PromptEl
  homeContent : Option String
deriving DecidableEq

/-- The UIManager singleton state: `_lastEnforcementTime` plus the DOM. -/
structure UIManagerState where
  lastEnforcementTime : Nat
  dom : Dom
deriving DecidableEq

/-- The `ensureMenuHidden()` effect on the menu element: remove `visible`,
add `hidden`, clear the inline opacity, and reset every item's inline
styles. -/
def menuHiddenOf (m : MenuEl) : MenuEl :=
  ⟨true, false, "", m.items.map (fun _ => ⟨"", ""⟩)⟩

/-- The `ensureMenuVisible()` effect on the menu element: remove `hidden`,
add `visible`, clear the inline opacity (items untouched). -/
def menuVisibleOf (m : MenuEl) : MenuEl :=
  ⟨false, true, "", m.items⟩

/-- The body of the `enforceCorrectUIState(appState)` switch, acting on
the present menu and prompt elements and the optional home content:
returns the enforced `(menu, prompt, homeContent)`.  Mirrors the `IDLE`,
`MENU_OPEN` and `SUBPAGE` cases and the do-nothing default for the
transitional states.  (`ensureMenuVisible` also sets the home content
opacity to `"1"`.) -/
def enforceCore (phase : String) (m : MenuEl) (p : PromptEl)
    (hc : Option String) : MenuEl × PromptEl × Option String :=
  if phase = "IDLE" then
    let p' := if p.hiddenCls then (⟨false, "1"⟩ : PromptEl) else p
    let m' := if m.visibleCls then menuHiddenOf m else m
    (m', p', hc.map (fun _ => "0"))
  else if phase = "MENU_OPEN" then
    let p' := if ¬ p.hiddenCls then (⟨true, "0"⟩ : PromptEl) else p
    let mOpened : MenuEl :=
      ⟨false, true, "", m.items.map (fun _ => ⟨"1", "translateY(0)"⟩)⟩
    let mh : MenuEl × Option String :=
      if ¬ m.visibleCls then (mOpened, hc.map (fun _ => "1")) else (m, hc)
    (mh.1, p', mh.2.map (fun _ => "1"))
  else if phase = "SUBPAGE" then
    let p' := if ¬ p.hiddenCls then (⟨true, p.opacity⟩ : PromptEl) else p
    let m' := if m.visibleCls then menuHiddenOf m else m
    (m', p', hc)
  else
    (m, p, hc)

/-- The `enforceCorrectUIState(appState)` method: return unchanged inside
the 300 ms anti-flicker window; otherwise stamp `_lastEnforcementTime`,
and when both the menu and the prompt elements exist run the enforcement
switch for the current phase. -/
def enforceCorrectUIState (phase : String) (now : Nat)
    (u : UIManagerState) : UIManagerState :=
  if now - u.lastEnforcementTime < 300 then u
  else
    match u.dom.menu, u.dom.continuePrompt with
    | some m, some p =>
      let r := enforceCore phase m p u.dom.homeContent
      ⟨now, ⟨some r.1, some r.2.1, r.2.2⟩⟩
    | _, _ => ⟨now, u.dom⟩

/-! Helper lemmas about `transitionTo`. -/

/-- Equation for a debounced call. -/
theorem transitionTo_debounced_eq (s : AppStateManager) (now : Nat)
    (t : String) (ih : Bool) (h1 : now - s.lastStateChangeTime < 300) :
    transitionTo s now t ih = (TransitionResult.debounced, s, Effects.noEffects) := by
  unfold transitionTo
  rw [if_pos h1]

/-- Equation for a call rejected by the state validation. -/
theorem transitionTo_invalid_eq (s : AppStateManager) (now : Nat)
    (t : String) (ih : Bool) (h1 : ¬ now - s.lastStateChangeTime < 300)
    (h2 : ¬ APP_STATES.contains t) :
    transitionTo s now t ih = (TransitionResult.invalidState, s, Effects.noEffects) := by
  unfold transitionTo
  rw [if_neg h1, if_pos h2]

/-- Equation for a committed call. -/
theorem transitionTo_commit_eq (s : AppStateManager) (now : Nat)
    (t : String) (ih : Bool) (h1 : ¬ now - s.lastStateChangeTime < 300)
    (h2 : APP_STATES.contains t) :
    transitionTo s now t ih =
      (TransitionResult.committed,
       ⟨t, some s.currentState, now, s.navigationBackToHome,
        s.stateChangeCallbacks⟩,
       ⟨(performStateActions t ih).actionsRun,
        (performStateActions t ih).promptShown,
        (performStateActions t ih).promptHidden,
        (performStateActions t ih).menuHiddenEnforced,
        (performStateActions t ih).menuShownEnforced,
        (performStateActions t ih).animationsCleared,
        some (t, some s.currentState),
        (s.stateChangeCallbacks.filter (subMatches s.currentState t)).map
          Subscription.id⟩) := by
  unfold transitionTo
  rw [if_neg h1, if_neg (not_not_intro h2)]

/-- A call commits exactly when it passes the debounce check and the
target is a valid state. -/
theorem transitionTo_committed_iff (s : AppStateManager) (now : Nat)
    (t : String) (ih : Bool) :
    (transitionTo s now t ih).1 = TransitionResult.committed ↔
      (¬ now - s.lastStateChangeTime < 300 ∧ APP_STATES.contains t) := by
  by_cases h1 : now - s.lastStateChangeTime < 300
  · rw [transitionTo_debounced_eq s now t ih h1]
    simp [h1]
  · by_cases h2 : APP_STATES.contains t
    · rw [transitionTo_commit_eq s now t ih h1 h2]
      simp only [true_iff]
      exact ⟨h1, h2⟩
    · rw [transitionTo_invalid_eq s now t ih h1 h2]
      constructor
      · intro hh
        exact absurd hh (by simp)
      · intro hh
        exact absurd hh.2 h2

/-- `performStateActions` always records the state it ran for. -/
theorem performStateActions_actionsRun (t : String) (ih : Bool) :
    (performStateActions t ih).actionsRun = some t := by
  unfold performStateActions
  split_ifs <;> rfl

/-- C1: a `transitionTo` call made less than 300 ms after the last
committed transition is rejected: it returns the debounce result (`false`
in JS), leaves `currentState`, `previousState` and `_lastStateChangeTime`
untouched, and produces no side effects (no `performStateActions`, no
event dispatch, no subscriber callbacks); consequently, of two requests
inside the debounce window following a committed transition, only the
first is committed and the second leaves the state (in particular
`currentState`) unchanged. -/
theorem transitionTo_debounce_rejects :
    (∀ (s : AppStateManager) (now : Nat) (t : String) (ih : Bool),
        now < s.lastStateChangeTime + 300 →
        transitionTo s now t ih =
          (TransitionResult.debounced, s, Effects.noEffects)) ∧
    (∀ (s : AppStateManager) (now₁ : Nat) (t₁ : String) (ih₁ : Bool)
        (now₂ : Nat) (t₂ : String) (ih₂ : Bool),
        (transitionTo s now₁ t₁ ih₁).1 = TransitionResult.committed →
        now₂ < now₁ + 300 →
        (transitionTo (transitionTo s now₁ t₁ ih₁).2.1 now₂ t₂ ih₂).1 =
          TransitionResult.debounced ∧
        (transitionTo (transitionTo s now₁ t₁ ih₁).2.1 now₂ t₂ ih₂).2.1 =
          (transitionTo s now₁ t₁ ih₁).2.1) := by
  constructor
  · intro s now t ih hlt
    exact transitionTo_debounced_eq s now t ih (by omega)
  · intro s now₁ t₁ ih₁ now₂ t₂ ih₂ hc hwin
    rcases (transitionTo_committed_iff s now₁ t₁ ih₁).mp hc with ⟨h1, h2⟩
    rw [transitionTo_commit_eq s now₁ t₁ ih₁ h1 h2]
    rw [transitionTo_debounced_eq _ now₂ t₂ ih₂ (by simp; omega)]
    exact ⟨rfl, rfl⟩

/-- Witness for C1: concrete debounced call, and a concrete pair of
requests 200 ms apart of which only the first commits. -/
theorem transitionTo_debounce_rejects_witness :
    (transitionTo ⟨"IDLE", none, 0, false, []⟩ 100 "MENU_OPENING" true =
      (TransitionResult.debounced, ⟨"IDLE", none, 0, false, []⟩,
       Effects.noEffects)) ∧
    ((transitionTo
        (transitionTo ⟨"IDLE", none, 0, false, []⟩ 500 "MENU_OPENING" true).2.1
        700 "MENU_OPEN" true).1 = TransitionResult.debounced ∧
     (transitionTo
        (transitionTo ⟨"IDLE", none, 0, false, []⟩ 500 "MENU_OPENING" true).2.1
        700 "MENU_OPEN" true).2.1 =
       (transitionTo ⟨"IDLE", none, 0, false, []⟩ 500 "MENU_OPENING" true).2.1) :=
  ⟨transitionTo_debounce_rejects.1 ⟨"IDLE", none, 0, false, []⟩ 100
      "MENU_OPENING" true (by decide),
   transitionTo_debounce_rejects.2 ⟨"IDLE", none, 0, false, []⟩ 500
      "MENU_OPENING" true 700 "MENU_OPEN" true (by decide) (by decide)⟩

/-- C2 (amended): a `transitionTo` call whose target is not a member of
`APP_STATES` never commits: it returns `false`, leaves the whole state
(`currentState`, `previousState`, `_lastStateChangeTime`) unchanged, and
runs no state-entry side effects; the `InvalidPhase` error report
(`console.error`) happens exactly when the call is not already rejected by
the debounce check, which runs first. -/
theorem transitionTo_invalid_rejected :
    ∀ (s : AppStateManager) (now : Nat) (t : String) (ih : Bool),
      ¬ APP_STATES.contains t →
      ((transitionTo s now t ih).1 ≠ TransitionResult.committed ∧
       (transitionTo s now t ih).2.1 = s ∧
       (transitionTo s now t ih).2.2 = Effects.noEffects) ∧
      (s.lastStateChangeTime + 300 ≤ now →
        (transitionTo s now t ih).1 = TransitionResult.invalidState) := by
  intro s now t ih hv
  by_cases h1 : now - s.lastStateChangeTime < 300
  · rw [transitionTo_debounced_eq s now t ih h1]
    refine ⟨⟨by simp, rfl, rfl⟩, ?_⟩
    intro hle
    omega
  · rw [transitionTo_invalid_eq s now t ih h1 hv]
    exact ⟨⟨by simp, rfl, rfl⟩, fun _ => rfl⟩

/-- Witness for C2's amended theorem at a concrete invalid target. -/
theorem transitionTo_invalid_rejected_witness :
    ((transitionTo ⟨"IDLE", none, 0, false, []⟩ 500 "NOT_A_STATE" true).1 ≠
        TransitionResult.committed ∧
      (transitionTo ⟨"IDLE", none, 0, false, []⟩ 500 "NOT_A_STATE" true).2.1 =
        ⟨"IDLE", none, 0, false, []⟩ ∧
      (transitionTo ⟨"IDLE", none, 0, false, []⟩ 500 "NOT_A_STATE" true).2.2 =
        Effects.noEffects) ∧
    (transitionTo ⟨"IDLE", none, 0, false, []⟩ 500 "NOT_A_STATE" true).1 =
      TransitionResult.invalidState :=
  ⟨(transitionTo_invalid_rejected ⟨"IDLE", none, 0, false, []⟩ 500
      "NOT_A_STATE" true (by decide)).1,
   (transitionTo_invalid_rejected ⟨"IDLE", none, 0, false, []⟩ 500
      "NOT_A_STATE" true (by decide)).2 (by decide)⟩

/-- Counterexample to C2 as stated: an invalid-target call arriving 100 ms
after the last committed transition is rejected by the debounce check
before validation runs, so no `InvalidPhase` error is reported for it. -/
theorem transitionTo_invalid_debounced_cex :
    ¬ APP_STATES.contains "NOT_A_STATE" ∧
    (transitionTo ⟨"IDLE", none, 1000, false, []⟩ 1100 "NOT_A_STATE" true).1 ≠
      TransitionResult.invalidState := by
  decide

/-- C6: a committed transition (debounce passed, valid target) sets
`previousState` to the phase that was current immediately before it — in
particular `previousState` is non-null after any commit — sets
`currentState` (the single authoritative phase field) to the target,
updates the timestamp to the call time, runs the phase-entry actions
synchronously for the target, dispatches the `appStateChanged` event with
the new and previous states, invokes the matching subscriber callbacks in
registration order (an order-preserving filter of the registration list),
and returns `true` (the committed result). -/
theorem transitionTo_commit_spec :
    ∀ (s : AppStateManager) (now : Nat) (t : String) (ih : Bool),
      s.lastStateChangeTime + 300 ≤ now →
      APP_STATES.contains t →
      (transitionTo s now t ih).1 = TransitionResult.committed ∧
      (transitionTo s now t ih).2.1.currentState = t ∧
      (transitionTo s now t ih).2.1.previousState = some s.currentState ∧
      (transitionTo s now t ih).2.1.previousState ≠ none ∧
      (transitionTo s now t ih).2.1.lastStateChangeTime = now ∧
      (transitionTo s now t ih).2.2.actionsRun = some t ∧
      (transitionTo s now t ih).2.2.dispatched = some (t, some s.currentState) ∧
      (transitionTo s now t ih).2.2.fired =
        (s.stateChangeCallbacks.filter (subMatches s.currentState t)).map
          Subscription.id := by
  intro s now t ih hle hv
  rw [transitionTo_commit_eq s now t ih (by omega) hv]
  refine ⟨rfl, rfl, rfl, by simp, rfl, ?_, rfl, rfl⟩
  exact performStateActions_actionsRun t ih

/-- Witness for C6: a concrete committed transition with one matching and
one non-matching subscriber. -/
theorem transitionTo_commit_spec_witness :
    (transitionTo
        ⟨"IDLE", none, 0, false,
         [⟨"sub1", "*", "MENU_OPENING"⟩, ⟨"sub2", "MENU_OPEN", "*"⟩]⟩
        400 "MENU_OPENING" true).1 = TransitionResult.committed ∧
    (transitionTo
        ⟨"IDLE", none, 0, false,
         [⟨"sub1", "*", "MENU_OPENING"⟩, ⟨"sub2", "MENU_OPEN", "*"⟩]⟩
        400 "MENU_OPENING" true).2.1.currentState = "MENU_OPENING" ∧
    (transitionTo
        ⟨"IDLE", none, 0, false,
         [⟨"sub1", "*", "MENU_OPENING"⟩, ⟨"sub2", "MENU_OPEN", "*"⟩]⟩
        400 "MENU_OPENING" true).2.1.previousState = some "IDLE" ∧
    (transitionTo
        ⟨"IDLE", none, 0, false,
         [⟨"sub1", "*", "MENU_OPENING"⟩, ⟨"sub2", "MENU_OPEN", "*"⟩]⟩
        400 "MENU_OPENING" true).2.1.previousState ≠ none ∧
    (transitionTo
        ⟨"IDLE", none, 0, false,
         [⟨"sub1", "*", "MENU_OPENING"⟩, ⟨"sub2", "MENU_OPEN", "*"⟩]⟩
        400 "MENU_OPENING" true).2.1.lastStateChangeTime = 400 ∧
    (transitionTo
        ⟨"IDLE", none, 0, false,
         [⟨"sub1", "*", "MENU_OPENING"⟩, ⟨"sub2", "MENU_OPEN", "*"⟩]⟩
        400 "MENU_OPENING" true).2.2.actionsRun = some "MENU_OPENING" ∧
    (transitionTo
        ⟨"IDLE", none, 0, false,
         [⟨"sub1", "*", "MENU_OPENING"⟩, ⟨"sub2", "MENU_OPEN", "*"⟩]⟩
        400 "MENU_OPENING" true).2.2.dispatched =
      some ("MENU_OPENING", some "IDLE") ∧
    (transitionTo
        ⟨"IDLE", none, 0, false,
         [⟨"sub1", "*", "MENU_OPENING"⟩, ⟨"sub2", "MENU_OPEN", "*"⟩]⟩
        400 "MENU_OPENING" true).2.2.fired =
      (([⟨"sub1", "*", "MENU_OPENING"⟩, ⟨"sub2", "MENU_OPEN", "*"⟩] :
          List Subscription).filter (subMatches "IDLE" "MENU_OPENING")).map
        Subscription.id :=
  transitionTo_commit_spec
    ⟨"IDLE", none, 0, false,
     [⟨"sub1", "*", "MENU_OPENING"⟩, ⟨"sub2", "MENU_OPEN", "*"⟩]⟩
    400 "MENU_OPENING" true (by decide) (by decide)

/-- C4: `closeMenu()` succeeds only from `MENU_OPEN` (any other phase is a
pure `false`-returning no-op, and a `true` result implies the phase was
`MENU_OPEN`), committing `MENU_CLOSING`; and when the closing sequence's
completion callback fires at least 300 ms after the last committed
transition, the machine is in `IDLE` and, when the active route is the
home route (and the prompt element exists), the continue prompt is shown
again — in either the logo or the no-logo branch of the sequence. -/
theorem closeMenu_spec :
    (∀ (s : AppStateManager) (now : Nat) (ih : Bool),
        s.currentState ≠ "MENU_OPEN" →
        closeMenu s now ih = (false, s, Effects.noEffects)) ∧
    (∀ (s : AppStateManager) (now : Nat) (ih : Bool),
        (closeMenu s now ih).1 = true →
        s.currentState = "MENU_OPEN" ∧
        (closeMenu s now ih).2.1.currentState = "MENU_CLOSING" ∧
        (closeMenu s now ih).2.1.lastStateChangeTime = now) ∧
    (∀ (s : AppStateManager) (now : Nat) (ih pe lb : Bool),
        s.lastStateChangeTime + 300 ≤ now →
        (closeMenuCompletion s now ih pe lb).1.currentState = "IDLE" ∧
        (ih = true → pe = true →
          (closeMenuCompletion s now ih pe lb).2.promptShown = true)) := by
  refine ⟨?_, ?_, ?_⟩
  · intro s now ih hs
    simp only [closeMenu, if_pos hs]
  · intro s now ih hret
    by_cases hs : s.currentState = "MENU_OPEN"
    · refine ⟨hs, ?_⟩
      by_cases hc : (transitionTo s now "MENU_CLOSING" ih).1 =
          TransitionResult.committed
      · rcases (transitionTo_committed_iff s now "MENU_CLOSING" ih).mp hc with
          ⟨h1, h2⟩
        simp only [closeMenu, if_neg (not_not_intro hs), if_pos hc]
        rw [transitionTo_commit_eq s now "MENU_CLOSING" ih h1 h2]
        exact ⟨rfl, rfl⟩
      · simp only [closeMenu, if_neg (not_not_intro hs), if_neg hc] at hret
        cases hret
    · simp only [closeMenu, if_pos hs] at hret
      cases hret
  · intro s now ih pe lb hle
    have hc := transitionTo_commit_eq s now "IDLE" ih (by omega) (by decide)
    constructor
    · simp only [closeMenuCompletion, hc]
    · intro hih hpe
      simp only [closeMenuCompletion, hc, hih, hpe]
      cases lb <;> simp [performStateActions]

/-- Witness for C4: a concrete full close: `closeMenu` from `MENU_OPEN`
commits `MENU_CLOSING` at t = 1300, and the completion at t = 1800 (the
no-logo `setTimeout` branch) lands in `IDLE` with the prompt shown. -/
theorem closeMenu_spec_witness :
    closeMenu ⟨"IDLE", none, 0, false, []⟩ 1300 true =
      (false, ⟨"IDLE", none, 0, false, []⟩, Effects.noEffects) ∧
    ((⟨"MENU_OPEN", some "MENU_OPENING", 700, false, []⟩ :
        AppStateManager).currentState = "MENU_OPEN" ∧
      (closeMenu ⟨"MENU_OPEN", some "MENU_OPENING", 700, false, []⟩ 1300
          true).2.1.currentState = "MENU_CLOSING" ∧
      (closeMenu ⟨"MENU_OPEN", some "MENU_OPENING", 700, false, []⟩ 1300
          true).2.1.lastStateChangeTime = 1300) ∧
    ((closeMenuCompletion ⟨"MENU_CLOSING", some "MENU_OPEN", 1300, false, []⟩
        1800 true true false).1.currentState = "IDLE" ∧
      (closeMenuCompletion ⟨"MENU_CLOSING", some "MENU_OPEN", 1300, false, []⟩
        1800 true true false).2.promptShown = true) := by
  refine ⟨?_, ?_, ?_, ?_⟩
  · exact closeMenu_spec.1 ⟨"IDLE", none, 0, false, []⟩ 1300 true (by decide)
  · exact closeMenu_spec.2.1 ⟨"MENU_OPEN", some "MENU_OPENING", 700, false, []⟩
      1300 true (by decide)
  · exact (closeMenu_spec.2.2 ⟨"MENU_CLOSING", some "MENU_OPEN", 1300, false,
      []⟩ 1800 true true false (by decide)).1
  · exact (closeMenu_spec.2.2 ⟨"MENU_CLOSING", some "MENU_OPEN", 1300, false,
      []⟩ 1800 true true false (by decide)).2 rfl rfl

/-- C8 (amended): the `navigatingBackToHome` flag is set exactly by
`prepareForTransition(true)` (back-to-home navigation); every other state
machine operation — `transitionTo`, `openMenu`, `closeMenu` and its
completion, `prepareForTransition(false)`, `handleAfterNavigation`,
subscription management — leaves the flag unchanged; the flag is consumed
(reset to `false`) by the first `handlePageLoad` on the home route that
observes it `true`, a `handlePageLoad` that does not observe it `true`
(or is off the home route) is a complete no-op; in the back-to-home
scenario (`TRANSITIONING_TO_HOME`, flag set) the machine ends in `IDLE`
with the flag `false` provided the after-navigation hook fires at least
300 ms after the `TRANSITIONING_TO_HOME` commit (the page-load hook may
then fire at any time); but when both post-navigation hooks fire inside
the 300 ms debounce window of that commit, both `transitionTo(IDLE)`
calls are debounced: the flag is still consumed exactly once, yet the
machine remains in `TRANSITIONING_TO_HOME`. -/
theorem navigatingBackToHome_flag_spec :
    (∀ (s : AppStateManager) (now : Nat) (ih : Bool),
        (prepareForTransition s now true ih).1.navigationBackToHome = true) ∧
    (∀ (s : AppStateManager) (now : Nat) (ih : Bool),
        (prepareForTransition s now false ih).1.navigationBackToHome =
          s.navigationBackToHome) ∧
    (∀ (s : AppStateManager) (now : Nat) (t : String) (ih : Bool),
        (transitionTo s now t ih).2.1.navigationBackToHome =
          s.navigationBackToHome) ∧
    (∀ (s : AppStateManager) (now : Nat) (ih : Bool),
        (openMenu s now ih).2.1.navigationBackToHome =
          s.navigationBackToHome) ∧
    (∀ (s : AppStateManager) (now : Nat) (ih : Bool),
        (closeMenu s now ih).2.1.navigationBackToHome =
          s.navigationBackToHome) ∧
    (∀ (s : AppStateManager) (now : Nat) (ih pe lb : Bool),
        (closeMenuCompletion s now ih pe lb).1.navigationBackToHome =
          s.navigationBackToHome) ∧
    (∀ (s : AppStateManager) (now : Nat) (ih : Bool),
        (handleAfterNavigation s now ih).1.navigationBackToHome =
          s.navigationBackToHome) ∧
    (∀ (s : AppStateManager) (id fs ts : String),
        (onStateChange s id fs ts).navigationBackToHome =
          s.navigationBackToHome) ∧
    (∀ (s : AppStateManager) (id : String),
        (offStateChange s id).2.navigationBackToHome =
          s.navigationBackToHome) ∧
    (∀ (s : AppStateManager) (now : Nat),
        s.navigationBackToHome = true →
        (handlePageLoad s now true).1.navigationBackToHome = false) ∧
    (∀ (s : AppStateManager) (now : Nat) (ih : Bool),
        ¬ (ih = true ∧ s.navigationBackToHome = true) →
        handlePageLoad s now ih = (s, Effects.noEffects)) ∧
    (∀ (s : AppStateManager) (now₁ now₂ : Nat),
        s.currentState = "TRANSITIONING_TO_HOME" →
        s.navigationBackToHome = true →
        s.lastStateChangeTime + 300 ≤ now₁ →
        (handleAfterNavigation s now₁ true).1.currentState = "IDLE" ∧
        (handlePageLoad (handleAfterNavigation s now₁ true).1 now₂
            true).1.currentState = "IDLE" ∧
        (handlePageLoad (handleAfterNavigation s now₁ true).1 now₂
            true).1.navigationBackToHome = false) ∧
    (∀ (s : AppStateManager) (now₁ now₂ : Nat),
        s.currentState = "TRANSITIONING_TO_HOME" →
        s.navigationBackToHome = true →
        now₁ < s.lastStateChangeTime + 300 →
        now₂ < s.lastStateChangeTime + 300 →
        (handlePageLoad (handleAfterNavigation s now₁ true).1 now₂
            true).1.currentState = "TRANSITIONING_TO_HOME" ∧
        (handlePageLoad (handleAfterNavigation s now₁ true).1 now₂
            true).1.navigationBackToHome = false) := by
  have htrans : ∀ (s : AppStateManager) (now : Nat) (t : String) (ih : Bool),
      (transitionTo s now t ih).2.1.navigationBackToHome =
        s.navigationBackToHome ∧
      (transitionTo s now t ih).2.1.stateChangeCallbacks =
        s.stateChangeCallbacks := by
    intro s now t ih
    unfold transitionTo
    split_ifs <;> exact ⟨rfl, rfl⟩
  refine ⟨?_, ?_, ?_, ?_, ?_, ?_, ?_, ?_, ?_, ?_, ?_, ?_, ?_⟩
  · intro s now ih
    simp only [prepareForTransition, if_pos, setNavigatingBackToHome]
  · intro s now ih
    simp only [prepareForTransition, if_neg]
    exact (htrans s now "TRANSITIONING_TO_SUBPAGE" ih).1
  · intro s now t ih
    exact (htrans s now t ih).1
  · intro s now ih
    simp only [openMenu]
    split_ifs <;> first
      | rfl
      | exact (htrans s now "MENU_OPENING" ih).1
  · intro s now ih
    simp only [closeMenu]
    split_ifs <;> first
      | rfl
      | exact (htrans s now "MENU_CLOSING" ih).1
  · intro s now ih pe lb
    simp only [closeMenuCompletion]
    exact (htrans s now "IDLE" ih).1
  · intro s now ih
    unfold handleAfterNavigation
    split_ifs <;> first
      | rfl
      | exact (htrans s now "IDLE" true).1
      | exact (htrans s now "SUBPAGE" false).1
  · intro s id fs ts
    rfl
  · intro s id
    unfold offStateChange
    split_ifs <;> rfl
  · intro s now hflag
    simp only [handlePageLoad, hflag, if_pos rfl]
    exact (htrans (setNavigatingBackToHome s false) now "IDLE" true).1
  · intro s now ih hno
    rcases Bool.eq_false_or_eq_true ih with hih | hih
    · have hf : s.navigationBackToHome = false := by
        cases hfl : s.navigationBackToHome
        · rfl
        · exact absurd ⟨hih, hfl⟩ hno
      simp [handlePageLoad, hih, hf]
    · simp [handlePageLoad, hih]
  · intro s now₁ now₂ hcur hflag hle
    have hc := transitionTo_commit_eq s now₁ "IDLE" true (by omega) (by decide)
    have hstep : (handleAfterNavigation s now₁ true).1 =
        (⟨"IDLE", some s.currentState, now₁, true,
          s.stateChangeCallbacks⟩ : AppStateManager) := by
      simp only [handleAfterNavigation, hcur, hc, hflag]
      simp
    have hpl : handlePageLoad
        (⟨"IDLE", some s.currentState, now₁, true,
          s.stateChangeCallbacks⟩ : AppStateManager) now₂ true =
        ((transitionTo
            (⟨"IDLE", some s.currentState, now₁, false,
              s.stateChangeCallbacks⟩ : AppStateManager) now₂ "IDLE" true).2.1,
         (transitionTo
            (⟨"IDLE", some s.currentState, now₁, false,
              s.stateChangeCallbacks⟩ : AppStateManager) now₂ "IDLE"
            true).2.2) := by
      simp only [handlePageLoad, setNavigatingBackToHome]
      simp
    have hfin :
        (handlePageLoad (handleAfterNavigation s now₁ true).1 now₂
            true).1.currentState = "IDLE" ∧
        (handlePageLoad (handleAfterNavigation s now₁ true).1 now₂
            true).1.navigationBackToHome = false := by
      rw [hstep, hpl]
      by_cases hd : now₂ - now₁ < 300
      · rw [transitionTo_debounced_eq _ now₂ "IDLE" true hd]
        exact ⟨rfl, rfl⟩
      · rw [transitionTo_commit_eq _ now₂ "IDLE" true hd (by decide)]
        exact ⟨rfl, rfl⟩
    exact ⟨by rw [hstep], hfin.1, hfin.2⟩
  · intro s now₁ now₂ hcur hflag hd1 hd2
    have ha : (handleAfterNavigation s now₁ true).1 = s := by
      simp only [handleAfterNavigation, hcur, if_pos rfl]
      rw [transitionTo_debounced_eq s now₁ "IDLE" true (by omega)]
      simp
    have hb : handlePageLoad s now₂ true =
        ((transitionTo (setNavigatingBackToHome s false) now₂ "IDLE"
            true).2.1,
         (transitionTo (setNavigatingBackToHome s false) now₂ "IDLE"
            true).2.2) := by
      simp only [handlePageLoad, hflag, if_pos rfl]
      simp
    rw [ha, hb, transitionTo_debounced_eq (setNavigatingBackToHome s false)
      now₂ "IDLE" true (by simp only [setNavigatingBackToHome]; omega)]
    exact ⟨hcur, rfl⟩

/-- Witness for C8's amended theorem: the flag is set by a concrete
back-to-home `prepareForTransition`, untouched by a concrete
`transitionTo`, consumed by a concrete `handlePageLoad`, no-op for a
non-observing page load; a slow navigation (hook 300 ms after the commit)
ends in `IDLE` with the flag cleared, and a fast navigation (both hooks
inside the debounce window) consumes the flag while remaining in
`TRANSITIONING_TO_HOME`. -/
theorem navigatingBackToHome_flag_spec_witness :
    (prepareForTransition ⟨"SUBPAGE", none, 0, false, []⟩ 400 true
        false).1.navigationBackToHome = true ∧
    (transitionTo ⟨"SUBPAGE", none, 0, true, []⟩ 400 "IDLE"
        true).2.1.navigationBackToHome = true ∧
    (handlePageLoad ⟨"IDLE", none, 0, true, []⟩ 400
        true).1.navigationBackToHome = false ∧
    handlePageLoad ⟨"IDLE", none, 0, false, []⟩ 400 true =
      (⟨"IDLE", none, 0, false, []⟩, Effects.noEffects) ∧
    ((handleAfterNavigation
        ⟨"TRANSITIONING_TO_HOME", some "SUBPAGE", 1000, true, []⟩ 1300
        true).1.currentState = "IDLE" ∧
     (handlePageLoad
        (handleAfterNavigation
          ⟨"TRANSITIONING_TO_HOME", some "SUBPAGE", 1000, true, []⟩ 1300
          true).1 1400 true).1.currentState = "IDLE" ∧
     (handlePageLoad
        (handleAfterNavigation
          ⟨"TRANSITIONING_TO_HOME", some "SUBPAGE", 1000, true, []⟩ 1300
          true).1 1400 true).1.navigationBackToHome = false) ∧
    ((handlePageLoad
        (handleAfterNavigation
          ⟨"TRANSITIONING_TO_HOME", some "SUBPAGE", 1000, true, []⟩ 1100
          true).1 1200 true).1.currentState = "TRANSITIONING_TO_HOME" ∧
     (handlePageLoad
        (handleAfterNavigation
          ⟨"TRANSITIONING_TO_HOME", some "SUBPAGE", 1000, true, []⟩ 1100
          true).1 1200 true).1.navigationBackToHome = false) := by
  refine ⟨?_, ?_, ?_, ?_, ?_, ?_⟩
  · exact navigatingBackToHome_flag_spec.1 ⟨"SUBPAGE", none, 0, false, []⟩ 400
      false
  · have h := navigatingBackToHome_flag_spec.2.2.1
      ⟨"SUBPAGE", none, 0, true, []⟩ 400 "IDLE" true
    simpa using h
  · exact navigatingBackToHome_flag_spec.2.2.2.2.2.2.2.2.2.1
      ⟨"IDLE", none, 0, true, []⟩ 400 rfl
  · exact navigatingBackToHome_flag_spec.2.2.2.2.2.2.2.2.2.2.1
      ⟨"IDLE", none, 0, false, []⟩ 400 true (by simp)
  · exact navigatingBackToHome_flag_spec.2.2.2.2.2.2.2.2.2.2.2.1
      ⟨"TRANSITIONING_TO_HOME", some "SUBPAGE", 1000, true, []⟩ 1300 1400 rfl
      rfl (by decide)
  · exact navigatingBackToHome_flag_spec.2.2.2.2.2.2.2.2.2.2.2.2
      ⟨"TRANSITIONING_TO_HOME", some "SUBPAGE", 1000, true, []⟩ 1100 1200 rfl
      rfl (by decide) (by decide)

/-- Counterexample to C8 as stated: a fast back-to-home navigation whose
after-navigation and page-load hooks both fire inside the 300 ms debounce
window of the `TRANSITIONING_TO_HOME` commit (here at t = 1100 and
t = 1200 after a commit at t = 1000) consumes the flag, yet both
`transitionTo(IDLE)` calls are debounced, so the machine does not
transition to `IDLE`. -/
theorem navigatingBackToHome_fast_nav_cex :
    (handlePageLoad
        (handleAfterNavigation
          ⟨"TRANSITIONING_TO_HOME", some "SUBPAGE", 1000, true, []⟩ 1100
          true).1 1200 true).1.navigationBackToHome = false ∧
    (handlePageLoad
        (handleAfterNavigation
          ⟨"TRANSITIONING_TO_HOME", some "SUBPAGE", 1000, true, []⟩ 1100
          true).1 1200 true).1.currentState ≠ "IDLE" := by
  decide

/-- A transition never modifies the subscription registry. -/
theorem transitionTo_preserves_callbacks (s : AppStateManager) (now : Nat)
    (t : String) (ih : Bool) :
    (transitionTo s now t ih).2.1.stateChangeCallbacks =
      s.stateChangeCallbacks := by
  unfold transitionTo
  split_ifs <;> rfl

/-- Every subscription id fired by a transition is a registered id. -/
theorem fired_mem_ids (s : AppStateManager) (now : Nat) (t : String)
    (ih : Bool) (id : String)
    (hm : id ∈ (transitionTo s now t ih).2.2.fired) :
    id ∈ s.stateChangeCallbacks.map Subscription.id := by
  by_cases h1 : now - s.lastStateChangeTime < 300
  · rw [transitionTo_debounced_eq s now t ih h1] at hm
    cases hm
  · by_cases h2 : APP_STATES.contains t
    · rw [transitionTo_commit_eq s now t ih h1 h2] at hm
      rcases List.mem_map.mp hm with ⟨c, hc, hcid⟩
      exact List.mem_map.mpr ⟨c, List.mem_of_mem_filter hc, hcid⟩
    · rw [transitionTo_invalid_eq s now t ih h1 h2] at hm
      cases hm

/-- An unregistered id is never fired by any sequence of transitions. -/
theorem runTransitions_not_fired (id : String) :
    ∀ (reqs : List (Nat × String × Bool)) (s : AppStateManager),
      id ∉ s.stateChangeCallbacks.map Subscription.id →
      ∀ fl ∈ (runTransitions s reqs).2, id ∉ fl := by
  intro reqs
  induction reqs with
  | nil =>
    intro s _ fl hfl
    cases hfl
  | cons q rest ihyp =>
    intro s hid fl hfl
    rcases q with ⟨now, t, ihh⟩
    simp only [runTransitions] at hfl
    rcases List.mem_cons.mp hfl with hfl | hfl
    · subst hfl
      intro hin
      exact hid (fired_mem_ids s now t ihh id hin)
    · refine ihyp (transitionTo s now t ihh).2.1 ?_ fl hfl
      rw [transitionTo_preserves_callbacks]
      exact hid

/-- C10: `offStateChange(id)` returns `true` exactly when `id` is a
registered subscription id; on success the registry afterwards is the
registration list with exactly the entries carrying that id removed (all
other subscriptions retained, in order); on failure the whole state is
unchanged; and after the call, the removed id is never fired by any later
sequence of `transitionTo` calls. -/
theorem offStateChange_spec :
    (∀ (s : AppStateManager) (id : String),
        (offStateChange s id).1 = true ↔
          ∃ c ∈ s.stateChangeCallbacks, c.id = id) ∧
    (∀ (s : AppStateManager) (id : String),
        (offStateChange s id).1 = true →
        (offStateChange s id).2.stateChangeCallbacks =
          s.stateChangeCallbacks.filter (fun c => c.id != id)) ∧
    (∀ (s : AppStateManager) (id : String),
        (offStateChange s id).1 = false → (offStateChange s id).2 = s) ∧
    (∀ (s : AppStateManager) (id : String) (reqs : List (Nat × String × Bool)),
        ∀ fl ∈ (runTransitions (offStateChange s id).2 reqs).2, id ∉ fl) := by
  have hmem : ∀ (s : AppStateManager) (id : String),
      (s.stateChangeCallbacks.any (fun c => c.id == id)) = true ↔
        ∃ c ∈ s.stateChangeCallbacks, c.id = id := by
    intro s id
    rw [List.any_eq_true]
    constructor
    · rintro ⟨c, hc, hcb⟩
      exact ⟨c, hc, by simpa using hcb⟩
    · rintro ⟨c, hc, hcb⟩
      exact ⟨c, hc, by simpa using hcb⟩
  refine ⟨?_, ?_, ?_, ?_⟩
  · intro s id
    unfold offStateChange
    by_cases h : (s.stateChangeCallbacks.any (fun c => c.id == id)) = true
    · rw [if_pos h]
      simpa using (hmem s id).mp h
    · rw [if_neg h]
      constructor
      · intro hf
        cases hf
      · intro hex
        exact absurd ((hmem s id).mpr hex) h
  · intro s id hret
    unfold offStateChange at hret ⊢
    by_cases h : (s.stateChangeCallbacks.any (fun c => c.id == id)) = true
    · rw [if_pos h]
    · rw [if_neg h] at hret
      cases hret
  · intro s id hret
    unfold offStateChange at hret ⊢
    by_cases h : (s.stateChangeCallbacks.any (fun c => c.id == id)) = true
    · rw [if_pos h] at hret
      cases hret
    · rw [if_neg h]
  · intro s id reqs
    refine runTransitions_not_fired id reqs (offStateChange s id).2 ?_
    intro hin
    rcases List.mem_map.mp hin with ⟨c, hc, hcid⟩
    unfold offStateChange at hc
    by_cases h : (s.stateChangeCallbacks.any (fun c => c.id == id)) = true
    · rw [if_pos h] at hc
      have := List.of_mem_filter hc
      rw [hcid] at this
      simp at this
    · rw [if_neg h] at hc
      exact absurd ((hmem s id).mpr ⟨c, hc, hcid⟩) h

/-- Witness for C10 at a concrete registry: removing `"a"` succeeds and
removes exactly it, removing `"zz"` fails and changes nothing, and the
removed id is not fired by a later committed transition. -/
theorem offStateChange_spec_witness :
    ((offStateChange
        ⟨"IDLE", none, 0, false,
         [⟨"a", "*", "*"⟩, ⟨"b", "*", "*"⟩]⟩ "a").1 = true ↔
      ∃ c ∈ ([⟨"a", "*", "*"⟩, ⟨"b", "*", "*"⟩] : List Subscription),
        c.id = "a") ∧
    (offStateChange
        ⟨"IDLE", none, 0, false,
         [⟨"a", "*", "*"⟩, ⟨"b", "*", "*"⟩]⟩ "a").2.stateChangeCallbacks =
      ([⟨"a", "*", "*"⟩, ⟨"b", "*", "*"⟩] : List Subscription).filter
        (fun c => c.id != "a") ∧
    (offStateChange
        ⟨"IDLE", none, 0, false,
         [⟨"a", "*", "*"⟩, ⟨"b", "*", "*"⟩]⟩ "zz").2 =
      ⟨"IDLE", none, 0, false, [⟨"a", "*", "*"⟩, ⟨"b", "*", "*"⟩]⟩ ∧
    "a" ∉ (["b"] : List String) :=
  ⟨offStateChange_spec.1
     ⟨"IDLE", none, 0, false, [⟨"a", "*", "*"⟩, ⟨"b", "*", "*"⟩]⟩ "a",
   offStateChange_spec.2.1
     ⟨"IDLE", none, 0, false, [⟨"a", "*", "*"⟩, ⟨"b", "*", "*"⟩]⟩ "a"
     (by decide),
   offStateChange_spec.2.2.1
     ⟨"IDLE", none, 0, false, [⟨"a", "*", "*"⟩, ⟨"b", "*", "*"⟩]⟩ "zz"
     (by decide),
   offStateChange_spec.2.2.2
     ⟨"IDLE", none, 0, false, [⟨"a", "*", "*"⟩, ⟨"b", "*", "*"⟩]⟩ "a"
     [(400, "MENU_OPENING", true)] ["b"] (by decide)⟩

/-! Helper lemmas about the animation registry. -/

/-- Deleting a group leaves no entry with that key. -/
theorem find?_deleteGroup_self (m : List (String × List Nat)) (g : String) :
    (deleteGroup m g).find? (fun p => p.1 == g) = none := by
  rw [List.find?_eq_none]
  intro x hx
  have hmem := List.of_mem_filter hx
  simp only [bne_iff_ne, ne_eq] at hmem
  simpa using hmem

/-- Deleting a group does not affect lookups of other keys. -/
theorem find?_deleteGroup_other (m : List (String × List Nat)) (g g' : String)
    (hne : g' ≠ g) :
    (deleteGroup m g).find? (fun p => p.1 == g') =
      m.find? (fun p => p.1 == g') := by
  induction m with
  | nil => rfl
  | cons x xs ih =>
    by_cases hg : x.1 = g
    · have hdrop : deleteGroup (x :: xs) g = deleteGroup xs g := by
        simp [deleteGroup, List.filter_cons, hg]
      have hx' : (x.1 == g') = false := by
        simp [hg]
        exact fun hh => hne hh.symm
      rw [hdrop, ih, List.find?_cons, hx']
    · have hkeep : deleteGroup (x :: xs) g = x :: deleteGroup xs g := by
        simp [deleteGroup, List.filter_cons, hg]
      rw [hkeep, List.find?_cons, List.find?_cons]
      by_cases hx' : (x.1 == g') = true
      · rw [hx']
      · rw [Bool.eq_false_iff.mpr hx', ih]

/-- A key that is not present looks up to `none`. -/
theorem lookupGroup_eq_none (m : List (String × List Nat)) (g : String)
    (hng : hasGroup m g = false) : lookupGroup m g = none := by
  unfold lookupGroup
  have : m.find? (fun p => p.1 == g) = none := by
    rw [List.find?_eq_none]
    intro x hx hpx
    have hany : m.any (fun p => p.1 == g) = true :=
      List.any_eq_true.mpr ⟨x, hx, hpx⟩
    unfold hasGroup at hng
    rw [hng] at hany
    cases hany
  rw [this]
  rfl

/-- Every handle found under some group is a tracked handle. -/
theorem mem_lookup_mem_allHandles (m : List (String × List Nat)) (g : String)
    (h : Nat) (hm : h ∈ (lookupGroup m g).getD []) : h ∈ allHandles m := by
  induction m with
  | nil => cases hm
  | cons x xs ih =>
    have hall : allHandles (x :: xs) = x.2 ++ allHandles xs := by
      simp [allHandles]
    rw [hall]
    by_cases hx : (x.1 == g) = true
    · rw [lookupGroup, List.find?_cons, hx] at hm
      exact List.mem_append.mpr (Or.inl hm)
    · rw [lookupGroup, List.find?_cons, Bool.eq_false_iff.mpr hx] at hm
      exact List.mem_append.mpr (Or.inr (ih hm))

/-- When no handle is tracked twice, a handle found under `g'` is not also
found under a different key `g`. -/
theorem mem_lookup_disjoint (m : List (String × List Nat)) (g g' : String)
    (hnd : (allHandles m).Nodup) (hne : g' ≠ g) (h : Nat)
    (hm : h ∈ (lookupGroup m g').getD []) :
    h ∉ (lookupGroup m g).getD [] := by
  induction m with
  | nil => cases hm
  | cons x xs ih =>
    have hall : allHandles (x :: xs) = x.2 ++ allHandles xs := by
      simp [allHandles]
    rw [hall] at hnd
    rcases List.nodup_append.mp hnd with ⟨hnd1, hnd2, hdisj⟩
    by_cases hxg' : (x.1 == g') = true
    · have hxg : (x.1 == g) = false := by
        have : x.1 = g' := by simpa using hxg'
        simp [this]
        exact fun hh => hne hh
      rw [lookupGroup, List.find?_cons, hxg'] at hm
      rw [lookupGroup, List.find?_cons, hxg]
      intro hcon
      exact hdisj hm (mem_lookup_mem_allHandles xs g h hcon)
    · rw [lookupGroup, List.find?_cons, Bool.eq_false_iff.mpr hxg'] at hm
      by_cases hxg : (x.1 == g) = true
      · rw [lookupGroup, List.find?_cons, hxg]
        intro hcon
        exact hdisj hcon (mem_lookup_mem_allHandles xs g' h hm)
      · rw [lookupGroup, List.find?_cons, Bool.eq_false_iff.mpr hxg]
        exact ih hnd2 hm

/-- C9: `clearAnimations(g)` pauses every handle tracked under `g` and
removes only `g`'s entry — afterwards `g` has no entry, every other
group's entry is unchanged, and (for a registry that tracks no handle
twice, as the program does) a handle of another group is paused afterwards
exactly when it was already paused; `clearAnimations()` with no group
pauses every tracked handle and empties the whole map. -/
theorem clearAnimations_spec :
    (∀ (s : AnimationManagerState) (g : String),
        (∀ h ∈ (lookupGroup s.activeAnimations g).getD [],
          h ∈ (clearAnimations s (some g)).paused) ∧
        lookupGroup (clearAnimations s (some g)).activeAnimations g = none ∧
        (∀ g' : String, g' ≠ g →
          lookupGroup (clearAnimations s (some g)).activeAnimations g' =
            lookupGroup s.activeAnimations g')) ∧
    (∀ (s : AnimationManagerState) (g g' : String) (h : Nat),
        (allHandles s.activeAnimations).Nodup → g' ≠ g →
        h ∈ (lookupGroup s.activeAnimations g').getD [] →
        (h ∈ (clearAnimations s (some g)).paused ↔ h ∈ s.paused)) ∧
    (∀ s : AnimationManagerState,
        (∀ h ∈ allHandles s.activeAnimations,
          h ∈ (clearAnimations s none).paused) ∧
        (clearAnimations s none).activeAnimations = []) := by
  refine ⟨?_, ?_, ?_⟩
  · intro s g
    by_cases hg : hasGroup s.activeAnimations g = true
    · simp only [clearAnimations, if_pos hg]
      refine ⟨?_, ?_, ?_⟩
      · intro h hm
        exact List.mem_append.mpr (Or.inr hm)
      · exact congrArg (Option.map Prod.snd)
          (find?_deleteGroup_self s.activeAnimations g)
      · intro g' hne
        exact congrArg (Option.map Prod.snd)
          (find?_deleteGroup_other s.activeAnimations g g' hne)
    · have hg' : hasGroup s.activeAnimations g = false := by
        simpa using hg
      have hcl : clearAnimations s (some g) = s := by
        simp only [clearAnimations, if_neg hg]
      rw [hcl]
      refine ⟨?_, lookupGroup_eq_none s.activeAnimations g hg', fun _ _ => rfl⟩
      intro h hm
      rw [lookupGroup_eq_none s.activeAnimations g hg'] at hm
      cases hm
  · intro s g g' h hnd hne hm
    have hnot := mem_lookup_disjoint s.activeAnimations g g' hnd hne h hm
    by_cases hg : hasGroup s.activeAnimations g = true
    · simp only [clearAnimations, if_pos hg]
      constructor
      · intro hin
        rcases List.mem_append.mp hin with hin | hin
        · exact hin
        · exact absurd hin hnot
      · intro hin
        exact List.mem_append.mpr (Or.inl hin)
    · have hcl : clearAnimations s (some g) = s := by
        simp only [clearAnimations, if_neg hg]
      rw [hcl]
  · intro s
    exact ⟨fun h hm => List.mem_append.mpr (Or.inr hm), rfl⟩

/-- Witness for C9 at a concrete two-group registry. -/
theorem clearAnimations_spec_witness :
    (5 ∈ (clearAnimations ⟨[("logo", [5]), ("menu", [7])], [], 8⟩
        (some "logo")).paused) ∧
    lookupGroup (clearAnimations ⟨[("logo", [5]), ("menu", [7])], [], 8⟩
        (some "logo")).activeAnimations "logo" = none ∧
    lookupGroup (clearAnimations ⟨[("logo", [5]), ("menu", [7])], [], 8⟩
        (some "logo")).activeAnimations "menu" =
      lookupGroup [("logo", [5]), ("menu", [7])] "menu" ∧
    (7 ∈ (clearAnimations ⟨[("logo", [5]), ("menu", [7])], [], 8⟩
        (some "logo")).paused ↔
      7 ∈ ([] : List Nat)) ∧
    (7 ∈ (clearAnimations ⟨[("logo", [5]), ("menu", [7])], [], 8⟩
        none).paused) ∧
    (clearAnimations ⟨[("logo", [5]), ("menu", [7])], [], 8⟩
        none).activeAnimations = [] :=
  ⟨(clearAnimations_spec.1 ⟨[("logo", [5]), ("menu", [7])], [], 8⟩
      "logo").1 5 (by decide),
   (clearAnimations_spec.1 ⟨[("logo", [5]), ("menu", [7])], [], 8⟩
      "logo").2.1,
   (clearAnimations_spec.1 ⟨[("logo", [5]), ("menu", [7])], [], 8⟩
      "logo").2.2 "menu" (by decide),
   clearAnimations_spec.2.1 ⟨[("logo", [5]), ("menu", [7])], [], 8⟩
     "logo" "menu" 7 (by decide) (by decide) (by decide),
   (clearAnimations_spec.2.2 ⟨[("logo", [5]), ("menu", [7])], [], 8⟩).1 7
     (by decide),
   (clearAnimations_spec.2.2 ⟨[("logo", [5]), ("menu", [7])], [], 8⟩).2⟩

/-- After deleting a group's entry, the key is no longer present. -/
theorem hasGroup_deleteGroup_self (m : List (String × List Nat)) (g : String) :
    hasGroup (deleteGroup m g) g = false := by
  rw [Bool.eq_false_iff]
  intro hany
  rcases List.any_eq_true.mp hany with ⟨x, hx, hpx⟩
  have hmem := List.of_mem_filter hx
  simp only [bne_iff_ne, ne_eq] at hmem
  exact hmem (by simpa using hpx)

/-- A singleton entry appended at the end makes its key present. -/
theorem hasGroup_append_one (m : List (String × List Nat)) (g : String)
    (l : List Nat) : hasGroup (m ++ [(g, l)]) g = true := by
  simp [hasGroup, List.any_append]

/-- The push-update map is the identity on entries of other groups. -/
theorem map_update_id (m : List (String × List Nat)) (g : String) (h : Nat)
    (hng : hasGroup m g = false) :
    m.map (fun p => if p.1 == g then (p.1, p.2 ++ [h]) else p) = m := by
  induction m with
  | nil => rfl
  | cons x xs ih =>
    have hx : (x.1 == g) = false ∧ hasGroup xs g = false := by
      simpa [hasGroup, List.any_cons, Bool.or_eq_false_iff] using hng
    have hne : ¬ ((x.1 == g) = true) := by
      rw [hx.1]
      exact Bool.false_ne_true
    simp only [List.map_cons]
    rw [if_neg hne, ih hx.2]

/-- Looking up a key that occurs only in the final appended entry. -/
theorem lookup_append_fresh (m : List (String × List Nat)) (g : String)
    (l : List Nat) (hng : hasGroup m g = false) :
    lookupGroup (m ++ [(g, l)]) g = some l := by
  induction m with
  | nil => simp [lookupGroup, List.find?_cons]
  | cons x xs ih =>
    have hx : (x.1 == g) = false ∧ hasGroup xs g = false := by
      simpa [hasGroup, List.any_cons, Bool.or_eq_false_iff] using hng
    rw [List.cons_append]
    unfold lookupGroup
    rw [List.find?_cons, hx.1]
    exact ih hx.2

/-- Tracking into an absent group appends a fresh singleton entry. -/
theorem track_fresh_eq (m : List (String × List Nat)) (pa : List Nat)
    (n : Nat) (g : String) (h : Nat) (hng : hasGroup m g = false) :
    trackAnimation ⟨m, pa, n⟩ g h = ⟨m ++ [(g, [h])], pa, n⟩ := by
  simp [trackAnimation, hng]

/-- Tracking into the group created by the previous push extends it. -/
theorem track_update_eq (m : List (String × List Nat)) (pa : List Nat)
    (n : Nat) (g : String) (l : List Nat) (h : Nat)
    (hng : hasGroup m g = false) :
    trackAnimation ⟨m ++ [(g, l)], pa, n⟩ g h =
      ⟨m ++ [(g, l ++ [h])], pa, n⟩ := by
  simp only [trackAnimation]
  rw [hasGroup_append_one, if_pos rfl, List.map_append, map_update_id m g h hng]
  simp

/-- The group cleared by `clearAnimations(g)` is absent afterwards. -/
theorem hasGroup_clear_some (s : AnimationManagerState) (g : String) :
    hasGroup (clearAnimations s (some g)).activeAnimations g = false := by
  by_cases hg : hasGroup s.activeAnimations g = true
  · simp only [clearAnimations, if_pos hg]
    exact hasGroup_deleteGroup_self s.activeAnimations g
  · simp only [clearAnimations, if_neg hg]
    simpa using hg

/-- Every handle previously tracked under `g` is paused by
`clearAnimations(g)`. -/
theorem clear_pauses (s : AnimationManagerState) (g : String) :
    ∀ h ∈ (lookupGroup s.activeAnimations g).getD [],
      h ∈ (clearAnimations s (some g)).paused := by
  intro h hm
  by_cases hg : hasGroup s.activeAnimations g = true
  · simp only [clearAnimations, if_pos hg]
    exact List.mem_append.mpr (Or.inr hm)
  · have hg' : hasGroup s.activeAnimations g = false := by simpa using hg
    rw [lookupGroup_eq_none s.activeAnimations g hg'] at hm
    cases hm

/-- Shape of `animateLogoForMenuOpen`: clear the logo group, then track
one fresh timeline handle. -/
theorem animateLogoForMenuOpen_eq (s : AnimationManagerState) :
    animateLogoForMenuOpen s true =
      ⟨(clearAnimations s (some "logo")).activeAnimations ++
         [("logo", [s.nextHandle])],
       (clearAnimations s (some "logo")).paused, s.nextHandle + 1⟩ := by
  by_cases hg : hasGroup s.activeAnimations "logo" = true
  · have hcl : clearAnimations s (some "logo") =
        ⟨deleteGroup s.activeAnimations "logo",
         s.paused ++ (lookupGroup s.activeAnimations "logo").getD [],
         s.nextHandle⟩ := by
      simp only [clearAnimations, if_pos hg]
    rw [show animateLogoForMenuOpen s true =
        trackAnimation (freshHandle (clearAnimations s (some "logo"))).2
          "logo" (freshHandle (clearAnimations s (some "logo"))).1 from rfl]
    rw [hcl]
    exact track_fresh_eq _ _ _ _ _
      (hasGroup_deleteGroup_self s.activeAnimations "logo")
  · have hg' : hasGroup s.activeAnimations "logo" = false := by simpa using hg
    have hcl : clearAnimations s (some "logo") = s := by
      simp only [clearAnimations, if_neg hg]
    rw [show animateLogoForMenuOpen s true =
        trackAnimation (freshHandle (clearAnimations s (some "logo"))).2
          "logo" (freshHandle (clearAnimations s (some "logo"))).1 from rfl]
    rw [hcl]
    exact track_fresh_eq _ _ _ _ _ hg'

/-- Shape of `animateLogoForMenuClose`: identical registry effect. -/
theorem animateLogoForMenuClose_eq (s : AnimationManagerState) :
    animateLogoForMenuClose s true =
      ⟨(clearAnimations s (some "logo")).activeAnimations ++
         [("logo", [s.nextHandle])],
       (clearAnimations s (some "logo")).paused, s.nextHandle + 1⟩ := by
  have hsame : animateLogoForMenuClose s true = animateLogoForMenuOpen s true :=
    rfl
  rw [hsame]
  exact animateLogoForMenuOpen_eq s

/-- Shape of `animateMenuIn`: clear the menu group, track one handle. -/
theorem animateMenuIn_eq (s : AnimationManagerState) :
    animateMenuIn s true =
      ⟨(clearAnimations s (some "menu")).activeAnimations ++
         [("menu", [s.nextHandle])],
       (clearAnimations s (some "menu")).paused, s.nextHandle + 1⟩ := by
  by_cases hg : hasGroup s.activeAnimations "menu" = true
  · have hcl : clearAnimations s (some "menu") =
        ⟨deleteGroup s.activeAnimations "menu",
         s.paused ++ (lookupGroup s.activeAnimations "menu").getD [],
         s.nextHandle⟩ := by
      simp only [clearAnimations, if_pos hg]
    rw [show animateMenuIn s true =
        trackAnimation (freshHandle (clearAnimations s (some "menu"))).2
          "menu" (freshHandle (clearAnimations s (some "menu"))).1 from rfl]
    rw [hcl]
    exact track_fresh_eq _ _ _ _ _
      (hasGroup_deleteGroup_self s.activeAnimations "menu")
  · have hg' : hasGroup s.activeAnimations "menu" = false := by simpa using hg
    have hcl : clearAnimations s (some "menu") = s := by
      simp only [clearAnimations, if_neg hg]
    rw [show animateMenuIn s true =
        trackAnimation (freshHandle (clearAnimations s (some "menu"))).2
          "menu" (freshHandle (clearAnimations s (some "menu"))).1 from rfl]
    rw [hcl]
    exact track_fresh_eq _ _ _ _ _ hg'

/-- Shape of `animateMenuOut`: clear the menu group, then track the two
fresh handles of the new sequence (menu items tween, background fade). -/
theorem animateMenuOut_eq (s : AnimationManagerState) :
    animateMenuOut s true =
      ⟨(clearAnimations s (some "menu")).activeAnimations ++
         [("menu", [s.nextHandle, s.nextHandle + 1])],
       (clearAnimations s (some "menu")).paused, s.nextHandle + 2⟩ := by
  have hfirst : animateMenuIn s true =
      ⟨(clearAnimations s (some "menu")).activeAnimations ++
         [("menu", [s.nextHandle])],
       (clearAnimations s (some "menu")).paused, s.nextHandle + 1⟩ :=
    animateMenuIn_eq s
  have hstep : animateMenuOut s true =
      trackAnimation (freshHandle (animateMenuIn s true)).2 "menu"
        (freshHandle (animateMenuIn s true)).1 := rfl
  rw [hstep, hfirst]
  exact track_update_eq _ _ _ _ _ _ (hasGroup_clear_some s "menu")

/-- C5 (amended): each animation-starting operation (`animateMenuIn`,
`animateMenuOut`, `animateLogoForMenuOpen`, `animateLogoForMenuClose`)
first pauses and removes every handle tracked in its group, so its group
afterwards holds exactly the freshly created handles of the new sequence —
one for `animateLogoForMenuOpen`/`animateLogoForMenuClose`/`animateMenuIn`
(in particular a second logo sequence leaves exactly one tracked logo
animation), but two for `animateMenuOut` (items tween plus background
fade), so a group never holds handles from more than one sequence, while
it can hold two handles of one sequence. -/
theorem animation_sequences_clear_first :
    ∀ s : AnimationManagerState,
      (lookupGroup (animateLogoForMenuOpen s true).activeAnimations "logo" =
          some [s.nextHandle] ∧
        ∀ h ∈ (lookupGroup s.activeAnimations "logo").getD [],
          h ∈ (animateLogoForMenuOpen s true).paused) ∧
      (lookupGroup (animateLogoForMenuClose s true).activeAnimations "logo" =
          some [s.nextHandle] ∧
        ∀ h ∈ (lookupGroup s.activeAnimations "logo").getD [],
          h ∈ (animateLogoForMenuClose s true).paused) ∧
      (lookupGroup (animateMenuIn s true).activeAnimations "menu" =
          some [s.nextHandle] ∧
        ∀ h ∈ (lookupGroup s.activeAnimations "menu").getD [],
          h ∈ (animateMenuIn s true).paused) ∧
      (lookupGroup (animateMenuOut s true).activeAnimations "menu" =
          some [s.nextHandle, s.nextHandle + 1] ∧
        ∀ h ∈ (lookupGroup s.activeAnimations "menu").getD [],
          h ∈ (animateMenuOut s true).paused) := by
  intro s
  refine ⟨⟨?_, ?_⟩, ⟨?_, ?_⟩, ⟨?_, ?_⟩, ⟨?_, ?_⟩⟩
  · rw [animateLogoForMenuOpen_eq]
    exact lookup_append_fresh _ _ _ (hasGroup_clear_some s "logo")
  · intro h hm
    rw [animateLogoForMenuOpen_eq]
    exact clear_pauses s "logo" h hm
  · rw [animateLogoForMenuClose_eq]
    exact lookup_append_fresh _ _ _ (hasGroup_clear_some s "logo")
  · intro h hm
    rw [animateLogoForMenuClose_eq]
    exact clear_pauses s "logo" h hm
  · rw [animateMenuIn_eq]
    exact lookup_append_fresh _ _ _ (hasGroup_clear_some s "menu")
  · intro h hm
    rw [animateMenuIn_eq]
    exact clear_pauses s "menu" h hm
  · rw [animateMenuOut_eq]
    exact lookup_append_fresh _ _ _ (hasGroup_clear_some s "menu")
  · intro h hm
    rw [animateMenuOut_eq]
    exact clear_pauses s "menu" h hm

/-- Witness for C5's amended theorem: starting a second logo sequence
while handle 3 is in flight pauses 3 and leaves exactly the one fresh
handle 4 tracked; a menu-out over an in-flight menu handle leaves its two
fresh handles. -/
theorem animation_sequences_clear_first_witness :
    lookupGroup (animateLogoForMenuOpen ⟨[("logo", [3])], [], 4⟩
        true).activeAnimations "logo" = some [4] ∧
    3 ∈ (animateLogoForMenuOpen ⟨[("logo", [3])], [], 4⟩ true).paused ∧
    lookupGroup (animateMenuOut ⟨[("menu", [5])], [], 6⟩
        true).activeAnimations "menu" = some [6, 7] ∧
    5 ∈ (animateMenuOut ⟨[("menu", [5])], [], 6⟩ true).paused :=
  ⟨(animation_sequences_clear_first ⟨[("logo", [3])], [], 4⟩).1.1,
   (animation_sequences_clear_first ⟨[("logo", [3])], [], 4⟩).1.2 3
     (by decide),
   (animation_sequences_clear_first ⟨[("menu", [5])], [], 6⟩).2.2.2.1,
   (animation_sequences_clear_first ⟨[("menu", [5])], [], 6⟩).2.2.2.2 5
     (by decide)⟩

/-- Counterexample to C5 as stated: `animateMenuOut` tracks two handles in
the `"menu"` group (the items tween and the background fade), so the
registry does accumulate more than one handle in one group. -/
theorem animateMenuOut_two_handles_cex :
    lookupGroup (animateMenuOut ⟨[("menu", [5])], [], 6⟩
        true).activeAnimations "menu" = some [6, 7] ∧
    1 < ((lookupGroup (animateMenuOut ⟨[("menu", [5])], [], 6⟩
        true).activeAnimations "menu").getD []).length := by
  decide

/-- The per-phase enforcement body is idempotent on the DOM: re-running it
on its own output changes nothing. -/
theorem enforceCore_idem (phase : String) (m : MenuEl) (p : PromptEl)
    (hc : Option String) :
    enforceCore phase (enforceCore phase m p hc).1
        (enforceCore phase m p hc).2.1 (enforceCore phase m p hc).2.2 =
      enforceCore phase m p hc := by
  unfold enforceCore
  by_cases h1 : phase = "IDLE"
  · simp only [if_pos h1]
    by_cases hp : p.hiddenCls <;> by_cases hm : m.visibleCls <;>
      cases hc <;> simp [hp, hm, menuHiddenOf]
  · by_cases h2 : phase = "MENU_OPEN"
    · simp only [if_neg h1, if_pos h2]
      by_cases hp : p.hiddenCls <;> by_cases hm : m.visibleCls <;>
        cases hc <;> simp [hp, hm]
    · by_cases h3 : phase = "SUBPAGE"
      · simp only [if_neg h1, if_neg h2, if_pos h3]
        by_cases hp : p.hiddenCls <;> by_cases hm : m.visibleCls <;>
          cases hc <;> simp [hp, hm, menuHiddenOf]
      · simp only [if_neg h1, if_neg h2, if_neg h3]

/-- Equation: a call inside the 300 ms anti-flicker window is a no-op. -/
theorem enforce_within (u : UIManagerState) (phase : String) (now : Nat)
    (hd : now - u.lastEnforcementTime < 300) :
    enforceCorrectUIState phase now u = u := by
  unfold enforceCorrectUIState
  rw [if_pos hd]

/-- Equation: outside the window with the menu element missing, only the
timestamp is stamped. -/
theorem enforce_run_no_menu (u : UIManagerState) (phase : String) (now : Nat)
    (hnd : ¬ now - u.lastEnforcementTime < 300) (hm : u.dom.menu = none) :
    enforceCorrectUIState phase now u = ⟨now, u.dom⟩ := by
  unfold enforceCorrectUIState
  rw [if_neg hnd, hm]

/-- Equation: outside the window with the prompt element missing, only the
timestamp is stamped. -/
theorem enforce_run_no_prompt (u : UIManagerState) (phase : String)
    (now : Nat) (hnd : ¬ now - u.lastEnforcementTime < 300)
    (hp : u.dom.continuePrompt = none) :
    enforceCorrectUIState phase now u = ⟨now, u.dom⟩ := by
  unfold enforceCorrectUIState
  rw [if_neg hnd, hp]
  rcases u.dom.menu with _ | m <;> rfl

/-- Equation: outside the window with both elements present, the
enforcement switch runs. -/
theorem enforce_run_some (u : UIManagerState) (phase : String) (now : Nat)
    (m : MenuEl) (p : PromptEl)
    (hnd : ¬ now - u.lastEnforcementTime < 300) (hm : u.dom.menu = some m)
    (hp : u.dom.continuePrompt = some p) :
    enforceCorrectUIState phase now u =
      ⟨now, ⟨some (enforceCore phase m p u.dom.homeContent).1,
             some (enforceCore phase m p u.dom.homeContent).2.1,
             (enforceCore phase m p u.dom.homeContent).2.2⟩⟩ := by
  unfold enforceCorrectUIState
  rw [if_neg hnd, hm, hp]

/-- C7 (amended): when the first enforcement pass actually runs (at least
300 ms since the previous one), a second `enforceCorrectUIState` call for
the same phase — at any later time — leaves the menu, continue-prompt and
home-content DOM state exactly as after the first call: within 300 ms the
second call is rate-limited to a no-op, and beyond it the per-phase
enforcement body is idempotent. -/
theorem enforceCorrectUIState_idem :
    ∀ (phase : String) (now₁ now₂ : Nat) (u : UIManagerState),
      u.lastEnforcementTime + 300 ≤ now₁ →
      (enforceCorrectUIState phase now₂
          (enforceCorrectUIState phase now₁ u)).dom =
        (enforceCorrectUIState phase now₁ u).dom := by
  intro phase now₁ now₂ u hle
  have hnd : ¬ now₁ - u.lastEnforcementTime < 300 := by omega
  cases hm : u.dom.menu with
  | none =>
    rw [enforce_run_no_menu u phase now₁ hnd hm]
    by_cases hd : now₂ - now₁ < 300
    · rw [enforce_within _ phase now₂ hd]
    · rw [enforce_run_no_menu ⟨now₁, u.dom⟩ phase now₂ hd hm]
  | some m =>
    cases hp : u.dom.continuePrompt with
    | none =>
      rw [enforce_run_no_prompt u phase now₁ hnd hp]
      by_cases hd : now₂ - now₁ < 300
      · rw [enforce_within _ phase now₂ hd]
      · rw [enforce_run_no_prompt ⟨now₁, u.dom⟩ phase now₂ hd hp]
    | some p =>
      rw [enforce_run_some u phase now₁ m p hnd hm hp]
      by_cases hd : now₂ - now₁ < 300
      · rw [enforce_within _ phase now₂ hd]
      · rw [enforce_run_some _ phase now₂
          (enforceCore phase m p u.dom.homeContent).1
          (enforceCore phase m p u.dom.homeContent).2.1 hd rfl rfl]
        have hcore := enforceCore_idem phase m p u.dom.homeContent
        rw [show ((⟨now₁, ⟨some (enforceCore phase m p u.dom.homeContent).1,
              some (enforceCore phase m p u.dom.homeContent).2.1,
              (enforceCore phase m p u.dom.homeContent).2.2⟩⟩ :
            UIManagerState)).dom.homeContent =
            (enforceCore phase m p u.dom.homeContent).2.2 from rfl]
        rw [hcore]

/-- Witness for C7's amended theorem: a concrete `IDLE` enforcement over a
stale DOM (prompt hidden, menu visible) followed by a second call 400 ms
later leaves the DOM exactly as after the first call. -/
theorem enforceCorrectUIState_idem_witness :
    (enforceCorrectUIState "IDLE" 1700
        (enforceCorrectUIState "IDLE" 1300
          ⟨1000, ⟨some ⟨false, true, "0.5", [⟨"0.3", "translateY(7px)"⟩]⟩,
                  some ⟨true, "0"⟩, some "1"⟩⟩)).dom =
      (enforceCorrectUIState "IDLE" 1300
        ⟨1000, ⟨some ⟨false, true, "0.5", [⟨"0.3", "translateY(7px)"⟩]⟩,
                some ⟨true, "0"⟩, some "1"⟩⟩).dom :=
  enforceCorrectUIState_idem "IDLE" 1300 1700
    ⟨1000, ⟨some ⟨false, true, "0.5", [⟨"0.3", "translateY(7px)"⟩]⟩,
            some ⟨true, "0"⟩, some "1"⟩⟩ (by decide)

/-- Counterexample to C7 as stated: two calls in a row are not always
equivalent to one.  After an enforcement at t = 1000, a first call at
t = 1100 is rate-limited to a no-op (leaving the prompt hidden in phase
`IDLE`), but a second call at t = 1301 does run and un-hides the prompt,
so the DOM after two calls differs from the DOM after one. -/
theorem enforceCorrectUIState_rate_limit_cex :
    (enforceCorrectUIState "IDLE" 1301
        (enforceCorrectUIState "IDLE" 1100
          ⟨1000, ⟨some ⟨true, false, "", []⟩, some ⟨true, "0"⟩, none⟩⟩)).dom ≠
      (enforceCorrectUIState "IDLE" 1100
        ⟨1000, ⟨some ⟨true, false, "", []⟩, some ⟨true, "0"⟩, none⟩⟩).dom := by
  decide

/-- C3: `openMenu()` is a no-op returning `false` — with the state (in
particular the current phase) unchanged and no side effects — whenever the
current phase is not `IDLE` or menu interaction is not permitted (not on
the home route, or in a transitional phase). -/
theorem openMenu_noop :
    ∀ (s : AppStateManager) (now : Nat) (isHome : Bool),
      (s.currentState ≠ "IDLE" ∨ isMenuInteractionAllowed s isHome = false) →
      openMenu s now isHome = (false, s, Effects.noEffects) := by
  intro s now isHome hyp
  unfold openMenu
  by_cases hall : isMenuInteractionAllowed s isHome = true
  · rw [if_neg (not_not_intro hall)]
    have hne : ¬ s.currentState = "IDLE" := by
      rcases hyp with h | h
      · exact h
      · rw [hall] at h
        cases h
    rw [if_neg hne]
  · rw [if_pos (by simpa using hall)]

/-- Witness for C3: `openMenu` while the menu is already open (phase
`MENU_OPEN`, home route) does nothing. -/
theorem openMenu_noop_witness :
    openMenu ⟨"MENU_OPEN", some "MENU_OPENING", 1000, false, []⟩ 2000 true =
      (false, ⟨"MENU_OPEN", some "MENU_OPENING", 1000, false, []⟩,
       Effects.noEffects) :=
  openMenu_noop ⟨"MENU_OPEN", some "MENU_OPENING", 1000, false, []⟩ 2000 true
    (Or.inl (by decide))
